import Mathlib

/-!
Verification of the natural-language-to-Elasticsearch query compiler in
`query_transformer.py` (class `QueryTransformer` and its pydantic data model).

The embedding below mirrors the source:

* `JsonVal` models Python/JSON values as they come out of `json` parsing and
  out of pydantic's `model_dump()` (dicts are association lists in field
  order, `None` is `JsonVal.null`, numbers are rationals).
* The pydantic classes `MatchQuery`, `TermQuery`, `RangeQuery`, `BoolClause`,
  `BoolQuery`, `ElasticsearchQuery` and `AnswerOrESQuery` become Lean
  structures; pydantic validation of a parsed JSON value against each class
  becomes the corresponding `validate*` function, and `model_dump()` becomes
  the corresponding `dump*` function (pydantic includes `None`-valued fields
  in the dump: the `exclude_none` entries in the source's `Config` classes are
  not recognized pydantic options and have no effect).
* `clean_dict` is the nested helper of the same name inside
  `QueryTransformer.transform`.
* The LLM handle `self.llm` (an opaque external collaborator built by
  `create_llm`) is modelled as a function from the message pair
  `(system_message, user_message)` to a `ProviderResult`: either `failure`
  (the `invoke` call raised a transport error) or `content p`, where `p` is
  `some j` when the returned text parses as the JSON value `j` and `none`
  when `PydanticOutputParser.parse` cannot extract JSON from it at all.
* `QueryTransformer.transform` is the `transform` method; `transform_response`
  is the body of its `try`/`except` block after `self.llm.invoke` has
  produced its outcome.
* `main_step` is one iteration of the REPL loop in `main`.
-/

namespace SemanticSearch

/-- JSON / Python values: `None`, strings, numbers (as rationals; JSON decimal
literals are exact rationals and the program never does arithmetic on them),
booleans, lists, and dicts as association lists in insertion order. -/
inductive JsonVal where
  | null : JsonVal
  | str : String → JsonVal
  | num : Rat → JsonVal
  | bool : Bool → JsonVal
  | arr : List JsonVal → JsonVal
  | obj : List (String × JsonVal) → JsonVal

/-- Dictionary access on a JSON value, `none` on a non-dict or a missing key. -/
def JsonVal.lookup : JsonVal → String → Option JsonVal
  | .obj fs, k => fs.lookup k
  | _, _ => none

/-- The Python test `v is None`. -/
def isNull : JsonVal → Bool
  | .null => true
  | _ => false

mutual

/-- The nested helper `clean_dict` in `QueryTransformer.transform`:
recursively drops dict entries whose value is `None` and list items that are
`None`, leaving every other value (including empty dicts and lists) alone. -/
def clean_dict : JsonVal → JsonVal
  | .obj fs => .obj (clean_fields fs)
  | .arr xs => .arr (clean_items xs)
  | v => v

/-- The dict comprehension
`{k: clean_dict(v) for k, v in d.items() if v is not None}`. -/
def clean_fields : List (String × JsonVal) → List (String × JsonVal)
  | [] => []
  | (k, v) :: rest =>
      if isNull v then clean_fields rest else (k, clean_dict v) :: clean_fields rest

/-- The list comprehension `[clean_dict(item) for item in d if item is not None]`. -/
def clean_items : List JsonVal → List JsonVal
  | [] => []
  | v :: rest =>
      if isNull v then clean_items rest else clean_dict v :: clean_items rest

end

/-- `ValueType = str | int | float | bool | datetime | date`: the scalar values
allowed inside the leaf query dicts. JSON carries `datetime`/`date` values as
strings, and the `str` arm of the union captures them; `int` and `float` are
merged into one rational-number arm. -/
inductive Value where
  | s : String → Value
  | n : Rat → Value
  | b : Bool → Value

/-- `class MatchQuery(BaseModel): match: dict[str, ValueType]`
(`match` is a Lean keyword, hence the field name `match_`). -/
structure MatchQuery where
  match_ : List (String × Value)

/-- `class TermQuery(BaseModel): term: dict[str, ValueType]`. -/
structure TermQuery where
  term : List (String × Value)

/-- `class RangeQuery(BaseModel): range: dict[str, dict[str, ValueType]]`.
The inner dicts carry the range bounds; any string keys (or none at all)
are accepted by this type. -/
structure RangeQuery where
  range : List (String × List (String × Value))

/-- The union `MatchQuery | TermQuery | RangeQuery` used inside `BoolClause`
lists. -/
inductive LeafQuery where
  | m : MatchQuery → LeafQuery
  | t : TermQuery → LeafQuery
  | r : RangeQuery → LeafQuery

/-- `class BoolClause(BaseModel)` with its four optional predicate lists,
each defaulting to `None`. -/
structure BoolClause where
  must : Option (List LeafQuery)
  should : Option (List LeafQuery)
  must_not : Option (List LeafQuery)
  filter : Option (List LeafQuery)

/-- `class BoolQuery(BaseModel): bool: BoolClause`
(`bool` is a Lean builtin name, hence `bool_`). -/
structure BoolQuery where
  bool_ : BoolClause

/-- Values of the `sort` entries: `Union[str, dict[str, ValueType]]`. -/
inductive SortVal where
  | s : String → SortVal
  | d : List (String × Value) → SortVal

/-- `class ElasticsearchQuery(BaseModel)`: required `query`, optional `sort`,
`from_` (JSON alias `"from"`), `size` and `aggs`. -/
structure ElasticsearchQuery where
  query : BoolQuery
  sort : Option (List (List (String × SortVal)))
  from_ : Option Int
  size : Option Int
  aggs : Option (List (String × JsonVal))

/-- `class AnswerOrESQuery(BaseModel): answer: str | None; es_query: ElasticsearchQuery | None`. -/
structure AnswerOrESQuery where
  answer : Option String
  es_query : Option ElasticsearchQuery

/-- Pydantic validation of a `str` field: only a JSON string is accepted. -/
def validateStr : JsonVal → Option String
  | .str s => some s
  | _ => none

/-- Pydantic validation of a `ValueType` union member: strings, numbers and
booleans pass; `null`, lists and dicts are rejected. -/
def validateValue : JsonVal → Option Value
  | .str s => some (.s s)
  | .num q => some (.n q)
  | .bool b => some (.b b)
  | _ => none

/-- Entry-wise validation behind `dict[str, ValueType]`: every value must be
a scalar `ValueType`; any entry failing fails the whole dict. -/
def validateValueFields : List (String × JsonVal) → Option (List (String × Value))
  | [] => some []
  | (k, v) :: rest => do
      let v' ← validateValue v
      let rest' ← validateValueFields rest
      pure ((k, v') :: rest')

/-- Pydantic validation of `dict[str, ValueType]`: the input must be a dict
and every value must be a scalar `ValueType`. Field names are arbitrary
strings: no schema registry is consulted. -/
def validateValueDict : JsonVal → Option (List (String × Value))
  | .obj fs => validateValueFields fs
  | _ => none

/-- Pydantic validation of `MatchQuery`: a dict with a `"match"` entry that is
a valid `dict[str, ValueType]`; extra keys are ignored (pydantic default). -/
def validateMatchQuery : JsonVal → Option MatchQuery
  | .obj fs =>
      match fs.lookup "match" with
      | some v => (validateValueDict v).map MatchQuery.mk
      | none => none
  | _ => none

/-- Pydantic validation of `TermQuery`. -/
def validateTermQuery : JsonVal → Option TermQuery
  | .obj fs =>
      match fs.lookup "term" with
      | some v => (validateValueDict v).map TermQuery.mk
      | none => none
  | _ => none

/-- Entry-wise validation behind `dict[str, dict[str, ValueType]]`. -/
def validateRangeFields : List (String × JsonVal) → Option (List (String × List (String × Value)))
  | [] => some []
  | (k, v) :: rest => do
      let b ← validateValueDict v
      let rest' ← validateRangeFields rest
      pure ((k, b) :: rest')

/-- Pydantic validation of `dict[str, dict[str, ValueType]]`: every value must
itself be a dict of scalars; empty inner dicts are accepted. -/
def validateRangeDict : JsonVal → Option (List (String × List (String × Value)))
  | .obj fs => validateRangeFields fs
  | _ => none

/-- Pydantic validation of `RangeQuery`: a dict with a `"range"` entry that is
a `dict[str, dict[str, ValueType]]`. No check on the bound keys is performed;
the inner dicts may be empty or carry keys other than gt/gte/lt/lte. -/
def validateRangeQuery : JsonVal → Option RangeQuery
  | .obj fs =>
      match fs.lookup "range" with
      | some v => (validateRangeDict v).map RangeQuery.mk
      | none => none
  | _ => none

/-- Pydantic validation of the union `MatchQuery | TermQuery | RangeQuery`,
tried in declaration order. -/
def validateLeafQuery (j : JsonVal) : Option LeafQuery :=
  ((validateMatchQuery j).map LeafQuery.m)
    <|> ((validateTermQuery j).map LeafQuery.t)
    <|> ((validateRangeQuery j).map LeafQuery.r)

/-- Item-wise validation behind `list[MatchQuery | TermQuery | RangeQuery]`. -/
def validateLeafItems : List JsonVal → Option (List LeafQuery)
  | [] => some []
  | v :: rest => do
      let q ← validateLeafQuery v
      let rest' ← validateLeafItems rest
      pure (q :: rest')

/-- Pydantic validation of `list[MatchQuery | TermQuery | RangeQuery]`. -/
def validateLeafList : JsonVal → Option (List LeafQuery)
  | .arr xs => validateLeafItems xs
  | _ => none

/-- Pydantic handling of an optional field with default `None`: a missing key
or an explicit `null` yields `None`; any other value must validate. -/
def optField (fs : List (String × JsonVal)) (k : String)
    (f : JsonVal → Option α) : Option (Option α) :=
  match fs.lookup k with
  | none => some none
  | some JsonVal.null => some none
  | some v => (f v).map some

/-- Pydantic validation of `BoolClause`. -/
def validateBoolClause : JsonVal → Option BoolClause
  | .obj fs => do
      let must ← optField fs "must" validateLeafList
      let should ← optField fs "should" validateLeafList
      let must_not ← optField fs "must_not" validateLeafList
      let filter ← optField fs "filter" validateLeafList
      pure ⟨must, should, must_not, filter⟩
  | _ => none

/-- Pydantic validation of `BoolQuery`: the `"bool"` entry is required. -/
def validateBoolQuery : JsonVal → Option BoolQuery
  | .obj fs =>
      match fs.lookup "bool" with
      | some v => (validateBoolClause v).map BoolQuery.mk
      | none => none
  | _ => none

/-- Pydantic validation of an `int` field: an integral JSON number.
(Pydantic's lax coercion from numeric strings is not modelled; the `from_`
and `size` fields never matter below.) -/
def validateInt : JsonVal → Option Int
  | .num q => if q.den = 1 then some q.num else none
  | _ => none

/-- Pydantic validation of `Union[str, dict[str, ValueType]]` in sort entries. -/
def validateSortVal (j : JsonVal) : Option SortVal :=
  ((validateStr j).map SortVal.s) <|> ((validateValueDict j).map SortVal.d)

/-- Entry-wise validation behind one `sort` entry. -/
def validateSortFields : List (String × JsonVal) → Option (List (String × SortVal))
  | [] => some []
  | (k, v) :: rest => do
      let v' ← validateSortVal v
      let rest' ← validateSortFields rest
      pure ((k, v') :: rest')

/-- Pydantic validation of one `sort` entry. -/
def validateSortItem : JsonVal → Option (List (String × SortVal))
  | .obj fs => validateSortFields fs
  | _ => none

/-- Item-wise validation behind the `sort` list. -/
def validateSortItems : List JsonVal → Option (List (List (String × SortVal)))
  | [] => some []
  | v :: rest => do
      let item ← validateSortItem v
      let rest' ← validateSortItems rest
      pure (item :: rest')

/-- Pydantic validation of the `sort` list. -/
def validateSort : JsonVal → Option (List (List (String × SortVal)))
  | .arr xs => validateSortItems xs
  | _ => none

/-- Pydantic validation of `aggs: dict[str, Any]`: any dict passes unchanged. -/
def validateAggs : JsonVal → Option (List (String × JsonVal))
  | .obj fs => some fs
  | _ => none

/-- Pydantic validation of `ElasticsearchQuery`. `query` is required;
`populate_by_name = True` lets `from_` arrive under its alias `"from"` or its
field name. -/
def validateElasticsearchQuery : JsonVal → Option ElasticsearchQuery
  | .obj fs => do
      let q ← match fs.lookup "query" with
        | some v => validateBoolQuery v
        | none => none
      let sort ← optField fs "sort" validateSort
      let from_ ← match fs.lookup "from" with
        | some _ => optField fs "from" validateInt
        | none => optField fs "from_" validateInt
      let size ← optField fs "size" validateInt
      let aggs ← optField fs "aggs" validateAggs
      pure ⟨q, sort, from_, size, aggs⟩
  | _ => none

/-- Pydantic validation of the parser's target `AnswerOrESQuery`: what
`PydanticOutputParser.parse` checks once the raw text has produced a JSON
value. A non-dict top level is rejected; both fields are optional. -/
def validateAnswerOrESQuery : JsonVal → Option AnswerOrESQuery
  | .obj fs => do
      let answer ← optField fs "answer" validateStr
      let es ← optField fs "es_query" validateElasticsearchQuery
      pure ⟨answer, es⟩
  | _ => none

/-- `model_dump()` of a scalar. -/
def dumpValue : Value → JsonVal
  | .s s => .str s
  | .n q => .num q
  | .b b => .bool b

/-- `model_dump()` of a `dict[str, ValueType]`. -/
def dumpValueDict (l : List (String × Value)) : JsonVal :=
  .obj (l.map fun kv => (kv.1, dumpValue kv.2))

/-- `model_dump()` of a leaf query: each variant dumps to a one-key dict. -/
def dumpLeafQuery : LeafQuery → JsonVal
  | .m mq => .obj [("match", dumpValueDict mq.match_)]
  | .t tq => .obj [("term", dumpValueDict tq.term)]
  | .r rq => .obj [("range", .obj (rq.range.map fun kv => (kv.1, dumpValueDict kv.2)))]

/-- `model_dump()` of an optional leaf-query list (`None` dumps as `null`). -/
def dumpOptLeafList : Option (List LeafQuery) → JsonVal
  | none => .null
  | some l => .arr (l.map dumpLeafQuery)

/-- `model_dump()` of a `BoolClause`: all four keys appear, `None` as `null`. -/
def dumpBoolClause (c : BoolClause) : JsonVal :=
  .obj [("must", dumpOptLeafList c.must), ("should", dumpOptLeafList c.should),
        ("must_not", dumpOptLeafList c.must_not), ("filter", dumpOptLeafList c.filter)]

/-- `model_dump()` of a `BoolQuery`. -/
def dumpBoolQuery (b : BoolQuery) : JsonVal :=
  .obj [("bool", dumpBoolClause b.bool_)]

/-- `model_dump()` of a sort value. -/
def dumpSortVal : SortVal → JsonVal
  | .s s => .str s
  | .d o => dumpValueDict o

/-- `model_dump()` of the optional `sort` field. -/
def dumpSort : Option (List (List (String × SortVal))) → JsonVal
  | none => .null
  | some l => .arr (l.map fun item => .obj (item.map fun kv => (kv.1, dumpSortVal kv.2)))

/-- `model_dump()` of an optional `int` field. -/
def dumpOptInt : Option Int → JsonVal
  | none => .null
  | some n => .num n

/-- `model_dump()` of the optional `aggs` field. -/
def dumpAggs : Option (List (String × JsonVal)) → JsonVal
  | none => .null
  | some fs => .obj fs

/-- `model_dump()` of an `ElasticsearchQuery`: by default pydantic uses field
names (so `from_`, not its alias) and includes `None` values. -/
def dumpElasticsearchQuery (e : ElasticsearchQuery) : JsonVal :=
  .obj [("query", dumpBoolQuery e.query), ("sort", dumpSort e.sort),
        ("from_", dumpOptInt e.from_), ("size", dumpOptInt e.size),
        ("aggs", dumpAggs e.aggs)]

/-- `Settings` for the transformer. `LLM_PROVIDER` and `MODEL_NAME` are read
from the environment at construction; `TEMPERATURE` (a float fed only to
`create_llm`) plays no role in `transform` and is omitted. -/
structure Settings where
  LLM_PROVIDER : String
  MODEL_NAME : String

/-- Outcome of `self.llm.invoke([system_message, user_message])` combined with
the text-to-JSON stage of `PydanticOutputParser.parse`:
`failure` models a raised transport/provider error, `content (some j)` a reply
whose text parses as the JSON value `j`, and `content none` a reply from which
no JSON value can be extracted (the parser raises). -/
inductive ProviderResult where
  | failure : ProviderResult
  | content : Option JsonVal → ProviderResult

/-- The `QueryTransformer` object: its settings, the fixed format instructions
of `self.output_parser` (computed once from `AnswerOrESQuery` in `__init__`),
and the bound model-provider handle `self.llm`. Nothing here is mutated by
`transform`. -/
structure QueryTransformer where
  settings : Settings
  format_instructions : String
  llm : String × String → ProviderResult

/-- The fixed part of the system message f-string in `transform` (everything
before the interpolated `self.output_parser.get_format_instructions()`). -/
def system_message_template : String := String.join
  ["\n",
   "Your task is to translate a user prompt into a valid Elasticsearch query.\n",
   "\n",
   "Use only the following attributes in the query:\n",
   "```\n",
   "\x7b\"mappings\": \x7b\n",
   "   \"properties\": \x7b\n",
   "   \"analyst_consensus_price_target\": \x7b\n",
   "       \"properties\": \x7b\n",
   "       \"currency\": \x7b \"type\": \"keyword\" \x7d,                    # ISO3 currency code (eg EUR)\n",
   "       \"price\": \x7b \"type\": \"float\" \x7d,                         # the price target\n",
   "       \"nr_analysts\": \x7b \"type\": \"integer\" \x7d                  # the amount of analysts that are linked to the price target\n",
   "       \x7d\n",
   "   \x7d,\n",
   "\"analyst_recommendation_count\": \x7b \"type\": \"integer\" \x7d,        # the amount of analysts that have provided a recommendation   \n",
   "   \"analyst_recommendations\": \x7b\n",
   "       \"properties\": \x7b\n",
   "       \"BUY\": \x7b \"type\": \"integer\" \x7d,\n",
   "       \"HOLD\": \x7b \"type\": \"integer\" \x7d,\n",
   "       \"OUTPERFORM\": \x7b \"type\": \"integer\" \x7d,\n",
   "       \"UNDERPERFORM\": \x7b \"type\": \"integer\" \x7d\n",
   "       \x7d\n",
   "   \x7d,\n",
   "   \"analyst_upward_potential\": \x7b \"type\": \"float\" \x7d,          # the upwards potential from the latest price to the price target\n",
   "   \"currency\": \x7b \"type\": \"keyword\" \x7d,                        # ISO3 currency code (eg EUR)\n",
   "   \"debt_equity_latest\": \x7b \"type\": \"float\" \x7d,                # the debt to equity ratio\n",
   "   \"description\": \x7b \"type\": \"text\" \x7d,                        # the company description, describing what the company actually does\n",
   "   \"div_yield_current\": \x7b \"type\": \"float\" \x7d,                 # the latest dividend divided by the latest stock price\n",
   "   \"div_yield_current_fy\": \x7b \"type\": \"float\" \x7d,              # the latest annualized dividend, divided by the latest stock price\n",
   "   \"div_yield_ttm\": \x7b \"type\": \"float\" \x7d,                     # the dividend yield from dividends paid out in the last 12 months\n",
   "   \"dividend_payout_ratio_ttm\": \x7b \"type\": \"float\" \x7d,         # the ratio of net earnings that has been paid out in the form of dividends\n",
   "   \"eps_growth_last_5y\": \x7b \"type\": \"float\" \x7d,                # the earnings per share growth of the last 5 years\n",
   "   \"eps_ttm\": \x7b \"type\": \"float\" \x7d,                           # the earnings per share of the last 12 months\n",
   "   \"equity_industry\": \x7b \"type\": \"keyword\" \x7d,                 # the industry of the company. This is the equivalent of GICS level 3\n",
   "   \"equity_sector\": \x7b \"type\": \"keyword\" \x7d,                   # the sector the company. Can be one  of: [BASIC_MATERIALS, CONSUMER_CYCLICAL, FINANCIAL_SERVICES, REAL_ESTATE, COMMUNICATION_SERVICES, ENERGY, INDUSTRIALS, TECHNOLOGY, CONSUMER_DEFENSIVE, HEALTHCARE, UTILITIES, EDUCATION, OTHER]\n",
   "   \"financial_health_stars\": \x7b \"type\": \"integer\" \x7d,          # Quintile score for financial health relative to the sector. 1 is worst, 5 is best\n",
   "   \"growth_stars\": \x7b \"type\": \"integer\" \x7d,                    # Quintile score for growth relative to the sector. 1 is worst, 5 is best\n",
   "   \"isin\": \x7b \"type\": \"keyword\" \x7d,                            # ISIN identifier of the stock\n",
   "   \"market_cap\": \x7b \"type\": \"float\" \x7d,                        # Market capitalization of the stock, in currency\n",
   "   \"momentum_stars\": \x7b \"type\": \"integer\" \x7d,                  # Quintile score for momentum relative to the sector. 1 is worst, 5 is best\n",
   "   \"name\": \x7b \"type\": \"text\" \x7d,                               # Instrument/company name\n",
   "   \"net_profit_margin_ttm\": \x7b \"type\": \"float\" \x7d,             # Net profit margin of the company, for the last 12 months\n",
   "   \"number_of_employees\": \x7b \"type\": \"integer\" \x7d,             # Number of employees in the company\n",
   "   \"price_book_latest\": \x7b \"type\": \"float\" \x7d,                 # Price to book ratio for the last fiscal years\n",
   "   \"price_earnings_ex_extra_ttm\": \x7b \"type\": \"float\" \x7d,       # Price to earnings ratio for the last twelve months\n",
   "   \"price_sales_ttm\": \x7b \"type\": \"float\" \x7d,                   # Price to sales ratio for the last twelve months\n",
   "   \"profitability_stars\": \x7b \"type\": \"integer\" \x7d,             # Quintile score for profitability relative to the sector. 1 is worst, 5 is best\n",
   "   \"roe_ttm\": \x7b \"type\": \"float\" \x7d,                           # Return on equity number for the last 12 months\n",
   "   \"size_label\": \x7b \"type\": \"keyword\" \x7d,                      # Label describing the market cap. Can be one of: [SMALL, LARGE]\n",
   "   \"stability_stars\": \x7b \"type\": \"integer\" \x7d,                 # Quintile score for financial stability relative to the sector. 1 is worst, 5 is best\n",
   "   \"value_growth_label\": \x7b \"type\": \"keyword\" \x7d,              # Label describing the market cap. Can be one of: [VALUE, GROWTH]\n",
   "   \"value_stars\": \x7b \"type\": \"integer\" \x7d                      # Quintile score for value relative to the sector. 1 is worst, 5 is best\n",
   "   \x7d\n",
   "\x7d\n",
   "```\n",
   "\n",
   "Examples of user prompts and corresponding Elasticsearch queries:\n",
   "```\n",
   "1. \"European banks with high dividends\" ->\n",
   "\x7b\n",
   "    \"answer\": \"Searching for banks in Europe with high dividend yields\",\n",
   "    \"es_query\": \x7b\n",
   "        \"query\": \x7b\n",
   "            \"bool\": \x7b\n",
   "                \"filter\": [\n",
   "                    \x7b\"term\": \x7b\"currency.keyword\": \"EUR\"\x7d\x7d,\n",
   "                    \x7b\"term\": \x7b\"equity_industry.keyword\": \"Banks\"\x7d\x7d,\n",
   "                    \x7b\"range\": \x7b\"div_yield_ttm\": \x7b\"gte\": 0.03\x7d\x7d\x7d\n",
   "                ]\n",
   "            \x7d\n",
   "        \x7d\n",
   "    \x7d\n",
   "\x7d\n",
   "\n",
   "2. \"Large growth companies in Technology sector\" ->\n",
   "\x7b\n",
   "    \"answer\": \"Searching for large technology companies with growth characteristics\",\n",
   "    \"es_query\": \x7b\n",
   "        \"query\": \x7b\n",
   "            \"bool\": \x7b\n",
   "                \"filter\": [\n",
   "                    \x7b\"term\": \x7b\"size_label.keyword\": \"LARGE\"\x7d\x7d,\n",
   "                    \x7b\"term\": \x7b\"value_growth_label.keyword\": \"GROWTH\"\x7d\x7d,\n",
   "                    \x7b\"term\": \x7b\"equity_sector.keyword\": \"TECHNOLOGY\"\x7d\x7d\n",
   "                ]\n",
   "            \x7d\n",
   "        \x7d\n",
   "    \x7d\n",
   "\x7d\n",
   "\n",
   "3. \"Companies with upwards potential of 5%, covered by 5 analysts and with debt to equity lower than 40%\" ->\n",
   "\x7b\n",
   "    \"answer\": \"Searching for companies with strong analyst coverage, upside potential, and low debt\",\n",
   "    \"es_query\": \x7b\n",
   "        \"query\": \x7b\n",
   "            \"bool\": \x7b\n",
   "                \"filter\": [\n",
   "                    \x7b\"range\": \x7b\"analyst_upward_potential\": \x7b\"gte\": 0.05\x7d\x7d\x7d,\n",
   "                    \x7b\"range\": \x7b\"analyst_consensus_price_target.nr_analysts\": \x7b\"gte\": 5\x7d\x7d\x7d,\n",
   "                    \x7b\"range\": \x7b\"debt_equity_latest\": \x7b\"lte\": 0.4\x7d\x7d\x7d\n",
   "                ]\n",
   "            \x7d\n",
   "        \x7d\n",
   "    \x7d\n",
   "\x7d\n",
   "\n",
   "4. \"European banks with upward potential\" ->\n",
   "\x7b\n",
   "    \"answer\": \"Searching for European banks with positive upward potential from analysts\",\n",
   "    \"es_query\": \x7b\n",
   "        \"query\": \x7b\n",
   "            \"bool\": \x7b\n",
   "                \"filter\": [\n",
   "                    \x7b\"term\": \x7b\"currency.keyword\": \"EUR\"\x7d\x7d,\n",
   "                    \x7b\"term\": \x7b\"equity_industry.keyword\": \"Banks\"\x7d\x7d,\n",
   "                    \x7b\"range\": \x7b\"analyst_upward_potential\": \x7b\"gt\": 0\x7d\x7d\x7d\n",
   "                ]\n",
   "            \x7d\n",
   "        \x7d\n",
   "    \x7d\n",
   "\x7d\n",
   "```\n",
   "\n",
   "IMPORTANT: \n",
   "- For keyword fields (currency, equity_sector, equity_industry, size_label, value_growth_label, isin), always use the .keyword suffix in term queries\n",
   "- If the prompt is a question, provide an answer instead of creating an Elasticsearch query\n",
   "- Always add an answer/description explaining how the query was created\n",
   "- Use proper range queries for numerical fields (gte, lte, gt, lt)\n",
   "- Use term queries for exact keyword matches\n",
   "- Use bool/filter queries for combining multiple conditions\n",
   "- For \"upward potential\" queries, use range queries with analyst_upward_potential > 0 (e.g., \x7b\"range\": \x7b\"analyst_upward_potential\": \x7b\"gt\": 0\x7d\x7d\x7d)\n",
   "- ONLY use match, term, and range queries - no exists, nested, or other query types\n",
   "\n"]

/-- The full system message: the fixed template followed by the parser's
format instructions and the closing newline of the f-string. -/
def system_message (t : QueryTransformer) : String :=
  system_message_template ++ t.format_instructions ++ "\n"

/-- The per-call user message built in `transform`. -/
def user_message (natural_query : String) : String :=
  "Query: \"" ++ natural_query ++
    "\"\n\nTransform this into an appropriate Elasticsearch query or provide an answer if it\x27s a question."

/-- The dict returned by the `except` branch of `transform`. -/
def fallback_result : JsonVal :=
  .obj [("answer", .str "Sorry, I couldn\x27t process your query."), ("es_query", .null)]

/-- Body of the `try`/`except` in `transform`, as a function of the provider
call's outcome: a raised transport error or an unparseable reply is caught and
yields `fallback_result`; a reply that fails pydantic validation re-raises the
parse error, which the same `except` catches; otherwise the parsed result is
`model_dump()`ed and, when `es_query` is truthy (a non-`None` model, whose
dump is a non-empty dict), `clean_dict` is applied to it. -/
def transform_response : ProviderResult → JsonVal
  | .failure => fallback_result
  | .content none => fallback_result
  | .content (some j) =>
      match validateAnswerOrESQuery j with
      | none => fallback_result
      | some result =>
          match result.answer, result.es_query with
          | none, none => .obj [("answer", .null), ("es_query", .null)]
          | none, some q =>
              .obj [("answer", .null), ("es_query", clean_dict (dumpElasticsearchQuery q))]
          | some a, none => .obj [("answer", .str a), ("es_query", .null)]
          | some a, some q =>
              .obj [("answer", .str a), ("es_query", clean_dict (dumpElasticsearchQuery q))]

/-- `QueryTransformer.transform`: build the two messages, invoke the provider
once, and process the outcome as in `transform_response`. There is no input
validation before the provider call. -/
def QueryTransformer.transform (t : QueryTransformer) (natural_query : String) : JsonVal :=
  transform_response (t.llm (system_message t, user_message natural_query))

/-- Whitespace test behind Python `str.strip()` (ASCII whitespace). -/
def isPyWs (c : Char) : Bool := c == ' ' || c == '\t' || c == '\n' || c == '\r'

/-- Python `str.strip()`: drop leading and trailing whitespace. -/
def strip (s : String) : String :=
  ⟨((s.data.dropWhile isPyWs).reverse.dropWhile isPyWs).reverse⟩

/-- Python `str.lower()`. -/
def lower (s : String) : String := ⟨s.data.map Char.toLower⟩

/-- One iteration of the REPL loop in `main`: the raw line is stripped, quit
words exit, an empty stripped line is rejected with a message (`none`: no
`transform` call), and anything else is passed to `transform`. -/
def main_step (t : QueryTransformer) (raw : String) : Option JsonVal :=
  if lower (strip raw) = "quit" ∨ lower (strip raw) = "exit" ∨ lower (strip raw) = "q" then
    none
  else if strip raw = "" then
    none
  else
    some (t.transform (strip raw))

/-- A sequence of `transform` calls on one transformer object, recording for
each call the `(system, user)` message pair sent to the provider and the
returned dict. The object holds no mutable state, so each entry depends only
on its own input. -/
def run_calls (t : QueryTransformer) (qs : List String) :
    List ((String × String) × JsonVal) :=
  qs.map fun q => ((system_message t, user_message q), t.transform q)

/-- Rendered from the spec's words, for comparison with the code: the
"match everything" fallback `Search{"", StructuredQuery{clause: {}}}` — an
empty answer text together with a query holding an empty bool clause — in the
dict format `transform` returns. -/
def spec_match_all_fallback : JsonVal :=
  .obj [("answer", .str ""),
        ("es_query", .obj [("query", .obj [("bool", .obj [])])])]

mutual

/-- Check that no dict entry of a JSON value is bound to `null` and no list
holds a `null` item, recursively (a value standing alone is unconstrained:
the property speaks about what appears inside containers). -/
def nullFree : JsonVal → Bool
  | .obj fs => nullFreeFields fs
  | .arr xs => nullFreeItems xs
  | _ => true

/-- `nullFree` over the entries of a dict. -/
def nullFreeFields : List (String × JsonVal) → Bool
  | [] => true
  | (_, v) :: rest => !isNull v && nullFree v && nullFreeFields rest

/-- `nullFree` over the items of a list. -/
def nullFreeItems : List JsonVal → Bool
  | [] => true
  | v :: rest => !isNull v && nullFree v && nullFreeItems rest

end

/-- Arbitrary fixed settings; `transform`'s behaviour does not depend on them. -/
def sample_settings : Settings := ⟨"openai", "gpt-4o-mini"⟩

/-- A transformer with the given provider behaviour (the settings and the
format-instruction text are irrelevant to every property proved below). -/
def mk_transformer (llm : String × String → ProviderResult) : QueryTransformer :=
  ⟨sample_settings, "", llm⟩

/-- A transformer whose provider always fails with a transport error. -/
def qt_fail : QueryTransformer := mk_transformer fun _ => ProviderResult.failure

/-- A transformer whose provider always returns text with no JSON in it. -/
def qt_unparseable : QueryTransformer := mk_transformer fun _ => ProviderResult.content none

/-- A well-formed model output (the prompt's worked example 1 as JSON). -/
def c3_output : JsonVal :=
  .obj [("answer", .str "Searching for banks in Europe with high dividend yields"),
        ("es_query", .obj [("query", .obj [("bool", .obj [("filter", .arr
          [.obj [("term", .obj [("currency.keyword", .str "EUR")])],
           .obj [("term", .obj [("equity_industry.keyword", .str "Banks")])],
           .obj [("range", .obj [("div_yield_ttm", .obj [("gte", .num 0.03)])])]])])])])]

/-- A transformer whose provider always answers with `c3_output`. -/
def qt_c3 : QueryTransformer := mk_transformer fun _ => ProviderResult.content (some c3_output)

/-- A transformer whose provider returns the JSON object `{}`: no `answer`
field and no `es_query` field. -/
def qt_c4 : QueryTransformer := mk_transformer fun _ => ProviderResult.content (some (.obj []))

/-- A model output whose query uses a field absent from the schema registry
(`bogus_field`) and an enumerated keyword field (`equity_sector`) with a value
outside its declared enumeration (`NOT_A_SECTOR`). -/
def c5_output : JsonVal :=
  .obj [("answer", .str "ok"),
        ("es_query", .obj [("query", .obj [("bool", .obj [("filter", .arr
          [.obj [("term", .obj [("bogus_field", .str "x")])],
           .obj [("term", .obj [("equity_sector.keyword", .str "NOT_A_SECTOR")])]])])])])]

/-- A transformer whose provider always answers with `c5_output`. -/
def qt_c5 : QueryTransformer := mk_transformer fun _ => ProviderResult.content (some c5_output)

/-- The spec's scenario candidate: a query whose only predicate is
`RangePredicate{field: "debt_equity_latest", bounds: {}}` with no bound keys. -/
def c6_candidate : JsonVal :=
  .obj [("query", .obj [("bool", .obj [("filter", .arr
    [.obj [("range", .obj [("debt_equity_latest", .obj [])])]])])])]

/-- A model output whose query carries an empty `must` sub-clause and a range
predicate with an empty bounds object. -/
def c7_output : JsonVal :=
  .obj [("answer", .str "ok"),
        ("es_query", .obj [("query", .obj [("bool", .obj
          [("must", .arr []),
           ("filter", .arr [.obj [("range", .obj [("debt_equity_latest", .obj [])])]])])])])]

/-- A transformer whose provider always answers with `c7_output`. -/
def qt_c7 : QueryTransformer := mk_transformer fun _ => ProviderResult.content (some c7_output)

/-! ## Helper lemmas -/

theorem isNull_clean_dict (v : JsonVal) : isNull (clean_dict v) = isNull v := by
  cases v <;> rfl

mutual

theorem clean_dict_idem_aux : (j : JsonVal) → clean_dict (clean_dict j) = clean_dict j
  | .null => rfl
  | .str _ => rfl
  | .num _ => rfl
  | .bool _ => rfl
  | .arr xs => by simp [clean_dict, clean_items_idem_aux xs]
  | .obj fs => by simp [clean_dict, clean_fields_idem_aux fs]

theorem clean_fields_idem_aux :
    (fs : List (String × JsonVal)) → clean_fields (clean_fields fs) = clean_fields fs
  | [] => rfl
  | (k, v) :: rest => by
      by_cases h : isNull v = true
      · simp [clean_fields, h, clean_fields_idem_aux rest]
      · simp only [Bool.not_eq_true] at h
        simp [clean_fields, h, clean_fields_idem_aux rest, clean_dict_idem_aux v,
              isNull_clean_dict]

theorem clean_items_idem_aux :
    (xs : List JsonVal) → clean_items (clean_items xs) = clean_items xs
  | [] => rfl
  | v :: rest => by
      by_cases h : isNull v = true
      · simp [clean_items, h, clean_items_idem_aux rest]
      · simp only [Bool.not_eq_true] at h
        simp [clean_items, h, clean_items_idem_aux rest, clean_dict_idem_aux v,
              isNull_clean_dict]

end

mutual

theorem nullFree_clean_dict_aux : (j : JsonVal) → nullFree (clean_dict j) = true
  | .null => rfl
  | .str _ => rfl
  | .num _ => rfl
  | .bool _ => rfl
  | .arr xs => by simp [clean_dict, nullFree, nullFreeItems_clean_items_aux xs]
  | .obj fs => by simp [clean_dict, nullFree, nullFreeFields_clean_fields_aux fs]

theorem nullFreeFields_clean_fields_aux :
    (fs : List (String × JsonVal)) → nullFreeFields (clean_fields fs) = true
  | [] => rfl
  | (k, v) :: rest => by
      by_cases h : isNull v = true
      · simp [clean_fields, h, nullFreeFields_clean_fields_aux rest]
      · simp only [Bool.not_eq_true] at h
        simp [clean_fields, h, nullFreeFields, isNull_clean_dict,
              nullFree_clean_dict_aux v, nullFreeFields_clean_fields_aux rest]

theorem nullFreeItems_clean_items_aux :
    (xs : List JsonVal) → nullFreeItems (clean_items xs) = true
  | [] => rfl
  | v :: rest => by
      by_cases h : isNull v = true
      · simp [clean_items, h, nullFreeItems_clean_items_aux rest]
      · simp only [Bool.not_eq_true] at h
        simp [clean_items, h, nullFreeItems, isNull_clean_dict,
              nullFree_clean_dict_aux v, nullFreeItems_clean_items_aux rest]

end

theorem transform_response_shape (r : ProviderResult) :
    ∃ a e, transform_response r = JsonVal.obj [("answer", a), ("es_query", e)]
      ∧ (a = JsonVal.null ∨ ∃ s, a = JsonVal.str s)
      ∧ (e = JsonVal.null ∨ ∃ fs, e = JsonVal.obj fs) := by
  cases r with
  | failure => exact ⟨_, _, rfl, Or.inr ⟨_, rfl⟩, Or.inl rfl⟩
  | content raw =>
      cases raw with
      | none => exact ⟨_, _, rfl, Or.inr ⟨_, rfl⟩, Or.inl rfl⟩
      | some j =>
          rcases hv : validateAnswerOrESQuery j with _ | result
          · exact ⟨JsonVal.str "Sorry, I couldn\x27t process your query.", JsonVal.null,
                   by simp only [transform_response, hv, fallback_result],
                   Or.inr ⟨_, rfl⟩, Or.inl rfl⟩
          · obtain ⟨answer, es⟩ := result
            cases answer with
            | none =>
                cases es with
                | none =>
                    exact ⟨JsonVal.null, JsonVal.null,
                           by simp only [transform_response, hv], Or.inl rfl, Or.inl rfl⟩
                | some qq =>
                    exact ⟨JsonVal.null, clean_dict (dumpElasticsearchQuery qq),
                           by simp only [transform_response, hv], Or.inl rfl, Or.inr ⟨_, rfl⟩⟩
            | some a =>
                cases es with
                | none =>
                    exact ⟨JsonVal.str a, JsonVal.null,
                           by simp only [transform_response, hv], Or.inr ⟨_, rfl⟩, Or.inl rfl⟩
                | some qq =>
                    exact ⟨JsonVal.str a, clean_dict (dumpElasticsearchQuery qq),
                           by simp only [transform_response, hv],
                           Or.inr ⟨_, rfl⟩, Or.inr ⟨_, rfl⟩⟩

theorem lookup_answer_of_pair (a e : JsonVal) :
    (JsonVal.obj [("answer", a), ("es_query", e)]).lookup "answer" = some a := rfl

theorem lookup_es_of_pair (a e : JsonVal) :
    (JsonVal.obj [("answer", a), ("es_query", e)]).lookup "es_query" = some e := rfl

theorem validateValue_dumpValue (v : Value) : validateValue (dumpValue v) = some v := by
  cases v <;> rfl

theorem validateValueFields_dump (l : List (String × Value)) :
    validateValueFields (l.map fun kv => (kv.1, dumpValue kv.2)) = some l := by
  induction l with
  | nil => rfl
  | cons kv rest ih =>
      obtain ⟨k, v⟩ := kv
      simp [validateValueFields, validateValue_dumpValue, ih]

theorem validateValueDict_dump (l : List (String × Value)) :
    validateValueDict (dumpValueDict l) = some l := by
  simp only [dumpValueDict, validateValueDict]
  exact validateValueFields_dump l

/-! ## Claims -/

/-- C1: the claim says that on provider/transport failure and on unparseable
model output, `transform` returns the match-all fallback
`Search{"", StructuredQuery{clause: {}}}`. Counterexample: on both failure
modes the code returns the fixed apology dict
`{"answer": "Sorry, I couldn't process your query.", "es_query": None}`,
which is an answer-only result, not the match-all Search value. -/
theorem transform_provider_failure_not_match_all :
    qt_fail.transform "European banks with high dividends" = fallback_result
    ∧ qt_unparseable.transform "European banks with high dividends" = fallback_result
    ∧ fallback_result ≠ spec_match_all_fallback := by
  refine ⟨rfl, rfl, ?_⟩
  simp [fallback_result, spec_match_all_fallback]

/-- C1 (amended): on a transport failure, on output with no JSON in it, or on
output that fails pydantic validation, `transform` returns the fixed fallback
dict `{"answer": "Sorry, I couldn't process your query.", "es_query": None}`
— not an exception and not any other result. -/
theorem transform_fallback_on_failure (t : QueryTransformer) (q : String)
    (h : t.llm (system_message t, user_message q) = ProviderResult.failure
       ∨ t.llm (system_message t, user_message q) = ProviderResult.content none
       ∨ ∃ jv, t.llm (system_message t, user_message q) = ProviderResult.content (some jv)
           ∧ validateAnswerOrESQuery jv = none) :
    t.transform q = fallback_result := by
  show transform_response (t.llm (system_message t, user_message q)) = fallback_result
  rcases h with h | h | ⟨jv, hjv, hv⟩
  · rw [h]
    rfl
  · rw [h]
    rfl
  · rw [hjv]
    simp only [transform_response, hv]

/-- C1 witness: the fallback equation evaluated for a concrete transformer
whose provider always fails. -/
theorem transform_fallback_on_failure_witness :
    qt_fail.transform "anything" = fallback_result :=
  transform_fallback_on_failure qt_fail "anything" (Or.inl rfl)

/-- C2: `transform` is total — for every input string and every provider
behaviour (success with arbitrary output, transport failure, or unparseable
output) it returns a two-key result dict and lets no exception escape. -/
theorem transform_total (t : QueryTransformer) (q : String) :
    ∃ a e, t.transform q = JsonVal.obj [("answer", a), ("es_query", e)] := by
  obtain ⟨a, e, h, -, -⟩ :=
    transform_response_shape (t.llm (system_message t, user_message q))
  exact ⟨a, e, h⟩

/-- C3: the claim says empty/whitespace-only input makes `transform` return a
terminal Answer-class result without invoking the model provider.
Counterexample: on input `""` the result is whatever the provider produces —
with a provider returning a full search payload, `transform ""` returns a
query-present result, and its output differs between two providers, so the
provider is invoked. -/
theorem transform_empty_input_goes_to_provider :
    qt_c3.transform "" = c3_output
    ∧ qt_fail.transform "" = fallback_result
    ∧ qt_c3.transform "" ≠ qt_fail.transform "" := by
  refine ⟨rfl, rfl, ?_⟩
  have e1 : qt_c3.transform "" = c3_output := rfl
  have e2 : qt_fail.transform "" = fallback_result := rfl
  rw [e1, e2]
  simp [c3_output, fallback_result]

/-- C3 (amended): the empty/whitespace-input rejection lives in the CLI loop
(`main`), which strips the line and skips `transform` entirely for empty
input; `transform` itself performs no such check and hands every input,
including the empty string, to the provider. -/
theorem empty_input_checked_in_main_not_transform (t : QueryTransformer) (raw : String)
    (h : strip raw = "") :
    main_step t raw = none
    ∧ t.transform (strip raw)
        = transform_response (t.llm (system_message t, user_message (strip raw))) := by
  constructor
  · unfold main_step
    rw [h]
    rfl
  · rfl

/-- C3 witness: the amended statement evaluated at the whitespace-only raw
input `"   "` and the always-failing provider. -/
theorem empty_input_checked_in_main_not_transform_witness :
    main_step qt_fail "   " = none
    ∧ qt_fail.transform (strip "   ")
        = transform_response (qt_fail.llm (system_message qt_fail, user_message (strip "   "))) :=
  empty_input_checked_in_main_not_transform qt_fail "   " rfl

/-- C4: the claim says a result with neither an answer nor a query is never
returned (that case being an `InterpretError::Empty` failure).
Counterexample: when the model output is the JSON object `{}` — which pydantic
accepts, both fields being optional — `transform` returns
`{"answer": None, "es_query": None}`: neither variant populated, no failure. -/
theorem transform_neither_answer_nor_query :
    qt_c4.transform "anything"
      = JsonVal.obj [("answer", JsonVal.null), ("es_query", JsonVal.null)] := rfl

/-- C4 (amended): every result of `transform` is a dict with exactly the keys
`answer` (null or a string) and `es_query` (null or a dict); no normalization
to "exactly one populated" happens — in particular, when the model output
carries neither field, the result has both bound to null, rather than any
Empty-style failure. -/
theorem transform_result_shape_classification (t : QueryTransformer) (q : String) :
    (∃ a e, t.transform q = JsonVal.obj [("answer", a), ("es_query", e)]
      ∧ (a = JsonVal.null ∨ ∃ s, a = JsonVal.str s)
      ∧ (e = JsonVal.null ∨ ∃ fs, e = JsonVal.obj fs))
    ∧ qt_c4.transform q
        = JsonVal.obj [("answer", JsonVal.null), ("es_query", JsonVal.null)] :=
  ⟨transform_response_shape (t.llm (system_message t, user_message q)), rfl⟩

/-- C5: the claim says validation rejects every query with a predicate whose
field is not in the Schema Registry, and every TermPredicate whose value is
outside the field's declared enumeration. Counterexample: the candidate in
`c5_output` uses the unknown field `bogus_field` and the out-of-enumeration
sector value `NOT_A_SECTOR`, yet pydantic validation accepts it and
`transform` returns it verbatim. -/
theorem unknown_field_and_enum_value_accepted :
    (validateAnswerOrESQuery c5_output).isSome = true
    ∧ qt_c5.transform "stocks" = c5_output := ⟨rfl, rfl⟩

/-- C5 (amended): validation is structural only — a term predicate over any
field name and any scalar value validates, and `transform` echoes it back:
no schema-registry resolution and no enumeration check exist in the code. -/
theorem term_validation_is_structural_only (f : String) (v : Value) :
    validateLeafQuery (.obj [("term", .obj [(f, dumpValue v)])])
      = some (.t ⟨[(f, v)]⟩)
    ∧ (mk_transformer fun _ => ProviderResult.content (some (.obj [("answer", .str "ok"),
        ("es_query", .obj [("query", .obj [("bool", .obj [("filter",
          .arr [.obj [("term", .obj [(f, dumpValue v)])]])])])])]))).transform "q"
      = .obj [("answer", .str "ok"), ("es_query", .obj [("query", .obj [("bool", .obj [("filter",
          .arr [.obj [("term", .obj [(f, dumpValue v)])]])])])])] := by
  cases v <;> exact ⟨rfl, rfl⟩

/-- C6: the claim says a RangePredicate with an empty bounds mapping (or with
a key other than gt/gte/lt/lte) fails validation with a SchemaViolation.
Counterexample: the spec's own scenario candidate — a range on
`debt_equity_latest` with bounds `{}` — passes `ElasticsearchQuery`
validation, yielding a `RangeQuery` with an empty bounds list. -/
theorem empty_range_bounds_pass_validation :
    validateElasticsearchQuery c6_candidate
      = some ⟨⟨⟨none, none, none, some [.r ⟨[("debt_equity_latest", [])]⟩]⟩⟩,
              none, none, none, none⟩ := rfl

/-- C6 (amended): `RangeQuery` validation only requires the range value to be
a dict from field names to dicts of scalar values — any bound keys, including
none at all and keys outside gt/gte/lt/lte, are accepted. -/
theorem range_validation_accepts_any_bounds (f : String) (bounds : List (String × Value)) :
    validateLeafQuery (.obj [("range", .obj [(f, dumpValueDict bounds)])])
      = some (.r ⟨[(f, bounds)]⟩) := by
  have h1 : validateMatchQuery (.obj [("range", .obj [(f, dumpValueDict bounds)])]) = none := rfl
  have h2 : validateTermQuery (.obj [("range", .obj [(f, dumpValueDict bounds)])]) = none := rfl
  have h3 : validateRangeQuery (.obj [("range", .obj [(f, dumpValueDict bounds)])])
      = some ⟨[(f, bounds)]⟩ := by
    show (validateRangeDict (.obj [(f, dumpValueDict bounds)])).map RangeQuery.mk
        = some ⟨[(f, bounds)]⟩
    simp [validateRangeDict, validateRangeFields, validateValueDict_dump]
  unfold validateLeafQuery
  rw [h1, h2, h3]
  simp

/-- C7: the claim says the pruned output contains no empty bool sub-clauses
and no empty range bound objects. Counterexample: a model output with
`must: []` and a range with bounds `{}` round-trips through validation and
`clean_dict` unchanged — the empty list and the empty object survive in the
returned query. -/
theorem pruned_output_keeps_empty_containers :
    qt_c7.transform "q" = c7_output := rfl

/-- C7 (amended): the pruning step removes every dict entry bound to null and
every null list item, recursively, so the returned query never contains a key
bound to a null value — but empty sub-structures (empty bool sub-clauses,
empty range bound objects) are not removed. -/
theorem clean_dict_removes_all_nulls (j : JsonVal) : nullFree (clean_dict j) = true :=
  nullFree_clean_dict_aux j

/-- C8: null-pruning is idempotent — applying `clean_dict` to an
already-pruned structure returns the identical structure. -/
theorem clean_dict_idempotent (j : JsonVal) : clean_dict (clean_dict j) = clean_dict j :=
  clean_dict_idem_aux j

/-- C9: prompt building is deterministic — within any sequence of `transform`
calls on one transformer (whose schema text and format instructions are fixed
at construction), two calls with the same input text send the identical
(system, user) message pair to the provider, independent of the call history
around them. -/
theorem prompt_messages_deterministic (t : QueryTransformer) (qs : List String)
    (i j : Nat) (hi : i < qs.length) (hj : j < qs.length)
    (hq : qs.getD i "" = qs.getD j "") :
    ((run_calls t qs).map Prod.fst).getD i ("", "")
      = ((run_calls t qs).map Prod.fst).getD j ("", "") := by
  have hm : (run_calls t qs).map Prod.fst
      = qs.map fun q => (system_message t, user_message q) := by
    simp [run_calls]
  rw [hm, List.getD_eq_getElem?_getD, List.getD_eq_getElem?_getD,
      List.getElem?_map, List.getElem?_map,
      List.getElem?_eq_getElem hi, List.getElem?_eq_getElem hj]
  rw [List.getD_eq_getElem?_getD, List.getD_eq_getElem?_getD,
      List.getElem?_eq_getElem hi, List.getElem?_eq_getElem hj] at hq
  simp only [Option.getD_some, Option.map_some] at hq ⊢
  rw [hq]

/-- C9 witness: in the call sequence `["a", "b", "a"]` the first and third
calls carry the same input and produce the identical message pair. -/
theorem prompt_messages_deterministic_witness :
    ((run_calls qt_fail ["a", "b", "a"]).map Prod.fst).getD 0 ("", "")
      = ((run_calls qt_fail ["a", "b", "a"]).map Prod.fst).getD 2 ("", "") :=
  prompt_messages_deterministic qt_fail ["a", "b", "a"] 0 2 (by decide) (by decide) rfl

/-- C10: every dict returned by `transform` contains the keys `answer` and
`es_query` (on the success path `es_query` may be bound to null when the model
produced only an answer), and on the transport-failure fallback path
`es_query` is present and bound to null — callers reading the two keys never
hit a missing key. -/
theorem transform_result_keys (t : QueryTransformer) (q : String) :
    ((t.transform q).lookup "answer").isSome = true
    ∧ ((t.transform q).lookup "es_query").isSome = true
    ∧ (t.llm (system_message t, user_message q) = ProviderResult.failure →
        (t.transform q).lookup "es_query" = some JsonVal.null) := by
  obtain ⟨a, e, h, -, -⟩ :=
    transform_response_shape (t.llm (system_message t, user_message q))
  have h' : t.transform q = JsonVal.obj [("answer", a), ("es_query", e)] := h
  refine ⟨?_, ?_, ?_⟩
  · rw [h', lookup_answer_of_pair]
    rfl
  · rw [h', lookup_es_of_pair]
    rfl
  · intro hf
    have hfb : t.transform q = fallback_result := by
      show transform_response (t.llm (system_message t, user_message q)) = fallback_result
      rw [hf]
      rfl
    rw [hfb]
    rfl

/-- C10 witness: the key-presence facts evaluated for the always-failing
provider on a concrete input. -/
theorem transform_result_keys_witness :
    ((qt_fail.transform "x").lookup "answer").isSome = true
    ∧ ((qt_fail.transform "x").lookup "es_query").isSome = true
    ∧ (qt_fail.transform "x").lookup "es_query" = some JsonVal.null :=
  ⟨(transform_result_keys qt_fail "x").1, (transform_result_keys qt_fail "x").2.1,
   (transform_result_keys qt_fail "x").2.2 rfl⟩

end SemanticSearch
